import Mathlib

/-!
Verification of the wallet-connection widget in
`src/dapp-kit/connect-button.js` (walrus-pages).

The JavaScript module is shallowly embedded: each source function becomes a
Lean definition over explicit data; module-level mutable globals
(`selectedWallet`, `selectedAccount`, `isConnecting`, the persisted
preferred-wallet string, subscription handles, publish/log side effects)
are collected in a `WidgetState` record that every stateful operation
transforms.  Asynchronous external calls (the wallet `connect()` capability,
the signing capabilities, the RPC client) are modelled by passing their
outcome as an explicit parameter and by recording the calls that the code
issues as steps/counters in the state.
-/

namespace ConnectButton

/-- `SUI_MAINNET_CHAIN` constant from the source. -/
def SUI_MAINNET_CHAIN : String := "sui:mainnet"

/-- An account: `{ address, chains }` (spec §3; wallet-standard account). -/
structure Account where
  address : String
  chains : List String
  deriving DecidableEq, Repr

/-- The capability flags (`wallet.features[...]`) that the module reads.
Each field is `true` when the corresponding feature key is present. -/
structure Features where
  standardConnect : Bool
  standardDisconnect : Bool
  standardEvents : Bool
  suiSignTransaction : Bool
  suiSignTransactionBlock : Bool
  suiSignAndExecuteTransaction : Bool
  suiSignAndExecuteTransactionBlock : Bool
  deriving DecidableEq, Repr

/-- A wallet from the registry: optional `id`, display `name`, feature set,
and the wallet-held `accounts` list. -/
structure Wallet where
  id : Option String
  name : String
  features : Features
  accounts : List Account
  deriving DecidableEq, Repr

/-- `getWalletIdentifier(wallet)`: `wallet?.id || wallet?.name || ''`.
JS `||` falls through on the empty string, hence the emptiness tests. -/
def getWalletIdentifier (wallet : Wallet) : String :=
  match wallet.id with
  | some i => if i = "" then wallet.name else i
  | none => wallet.name

/-- `account.chains.includes(SUI_MAINNET_CHAIN)` (the `Array.isArray` guard in
the source is vacuous here because `chains` is always a list). -/
def hasMainnetChain (account : Account) : Bool :=
  account.chains.contains SUI_MAINNET_CHAIN

/-- `getPreferredAccount(accounts)`: the first account whose chains include
`sui:mainnet`, else `accounts[0]`, else `null`. -/
def getPreferredAccount (accounts : List Account) : Option Account :=
  match accounts.find? hasMainnetChain with
  | some a => some a
  | none => accounts.head?

/-- `canConnect(wallet)`: `standard:connect` plus at least one of the four
sign-capability variants. -/
def canConnect (wallet : Wallet) : Bool :=
  wallet.features.standardConnect &&
    (wallet.features.suiSignTransaction ||
      wallet.features.suiSignTransactionBlock ||
      wallet.features.suiSignAndExecuteTransaction ||
      wallet.features.suiSignAndExecuteTransactionBlock)

/-- `getConnectableWallets()`: `walletsApi.get().filter(canConnect).sort((a, b)
=> a.name.localeCompare(b.name))`.  The registry snapshot `walletsApi.get()`
is passed explicitly, and the locale-aware comparison `localeCompare(a, b) <= 0`
is abstracted as a boolean relation `le` on names (JS `Array.prototype.sort`
is a stable comparison sort; `mergeSort` models it). -/
def getConnectableWallets (le : String → String → Bool) (registry : List Wallet) :
    List Wallet :=
  ((registry.filter canConnect).mergeSort (fun a b => le a.name b.name))

/-! ## Signer factory (`getSigner`) -/

/-- The external calls the signer closure can issue, in order of occurrence.
`createClient` is `new CoreClient({url: getSuiRpcUrl()})`;
`setSenderIfNotSet` is `transaction.setSenderIfNotSet(account.address)`. -/
inductive SignerStep where
  | createClient
  | setSenderIfNotSet (address : String)
  | walletSignTransaction (chain : String)
  | clientExecuteTransactionBlock (showEffects showObjectChanges : Bool)
      (requestType : String)
  | walletSignAndExecuteTransaction (chain : String)
  | clientWaitForTransaction (showEffects showObjectChanges : Bool)
  deriving DecidableEq, Repr

/-- The errors the signer closure can throw. -/
inductive SignerError where
  | walletNotConnected
  | unsupportedWallet (name : String)
  deriving DecidableEq, Repr

/-- `wallet.features['sui:signTransaction'] ||
wallet.features['sui:signTransactionBlock']` (first branch of `getSigner`). -/
def hasSignTransactionFeature (w : Wallet) : Bool :=
  w.features.suiSignTransaction || w.features.suiSignTransactionBlock

/-- `wallet.features['sui:signAndExecuteTransaction'] ||
wallet.features['sui:signAndExecuteTransactionBlock']` (second branch). -/
def hasSignAndExecuteFeature (w : Wallet) : Bool :=
  w.features.suiSignAndExecuteTransaction ||
    w.features.suiSignAndExecuteTransactionBlock

/-- One invocation of the closure returned by `getSigner(wallet, account)`,
called with a `chain` argument (the source defaults it to
`SUI_MAINNET_CHAIN`).  Returns the list of external steps performed and the
error thrown, if any.  The transaction value itself carries no data relevant
to control flow and is omitted. -/
def signerRun (wallet : Option Wallet) (account : Option Account)
    (chain : String) : List SignerStep × Option SignerError :=
  match wallet, account with
  | some w, some a =>
    if hasSignTransactionFeature w then
      ([SignerStep.createClient, SignerStep.setSenderIfNotSet a.address,
        SignerStep.walletSignTransaction chain,
        SignerStep.clientExecuteTransactionBlock true true
          "WaitForLocalExecution"], none)
    else if hasSignAndExecuteFeature w then
      ([SignerStep.createClient, SignerStep.setSenderIfNotSet a.address,
        SignerStep.walletSignAndExecuteTransaction chain,
        SignerStep.clientWaitForTransaction true true], none)
    else
      ([SignerStep.createClient, SignerStep.setSenderIfNotSet a.address],
        some (SignerError.unsupportedWallet w.name))
  | _, _ => ([], some SignerError.walletNotConnected)

/-! ## Widget state and the bridge -/

/-- The `status` field passed to `updateWalletBridgeState`. -/
inductive BridgeStatus where
  | connected
  | connecting
  | disconnected
  deriving DecidableEq, Repr

/-- One call to `updateWalletBridgeState`.  `disconnectAvailable` records
whether the `disconnect` field is the real disconnect function (`true`) or
`null`; `signer` records the `(wallet, account)` pair captured by the
published `signAndExecute` closure, or `none` when that field is `null`. -/
structure BridgePublish where
  wallet : Option Wallet
  account : Option Account
  status : BridgeStatus
  disconnectAvailable : Bool
  signer : Option (Wallet × Account)
  deriving DecidableEq, Repr

/-- The module-level mutable state of `connect-button.js`, plus logs of its
observable side effects.  `bridgeLog` accumulates every
`updateWalletBridgeState` call; `connectInvocations` counts calls to a
wallet's `standard:connect` capability; `errorLog` / `warnLog` count
`console.error` / `console.warn` calls.  The subscription counters model the
handlers registered on the wallet registry and on `document`. -/
structure WidgetState where
  selectedWallet : Option Wallet
  selectedAccount : Option Account
  isConnecting : Bool
  preferredWallet : Option String
  pickerHidden : Bool
  walletChangeSubscribed : Bool
  registryRegisterHandlers : Nat
  registryUnregisterHandlers : Nat
  docClickHandlers : Nat
  docKeydownHandlers : Nat
  domRendered : Bool
  mounted : Bool
  bridgeLog : List BridgePublish
  connectInvocations : Nat
  errorLog : Nat
  warnLog : Nat
  deriving DecidableEq, Repr

/-- The argument `syncBridgeState()` passes to `updateWalletBridgeState`,
as a function of the current selection state. -/
def bridgeView (s : WidgetState) : BridgePublish :=
  match s.selectedWallet, s.selectedAccount with
  | some w, some a =>
    { wallet := some w, account := some a, status := BridgeStatus.connected,
      disconnectAvailable := true, signer := some (w, a) }
  | _, _ =>
    { wallet := none, account := none,
      status := if s.isConnecting then BridgeStatus.connecting
                else BridgeStatus.disconnected,
      disconnectAvailable := false, signer := none }

/-- `syncBridgeState()`: publish `bridgeView s` on the bridge. -/
def syncBridgeState (s : WidgetState) : WidgetState :=
  { s with bridgeLog := s.bridgeLog ++ [bridgeView s] }

/-- `persistPreferredWallet(wallet)`: store the identifier, or remove the
key for `null`.  Storage errors are swallowed in the source; the model
assumes storage succeeds. -/
def persistPreferredWallet (s : WidgetState) (wallet : Option Wallet) :
    WidgetState :=
  match wallet with
  | some w => { s with preferredWallet := some (getWalletIdentifier w) }
  | none => { s with preferredWallet := none }

/-- `cleanupWalletEvents()`: call and drop the stored per-wallet `change`
unsubscribe function, if any. -/
def cleanupWalletEvents (s : WidgetState) : WidgetState :=
  { s with walletChangeSubscribed := false }

/-- `closeWalletPicker()`. -/
def closeWalletPicker (s : WidgetState) : WidgetState :=
  { s with pickerHidden := true }

/-- `subscribeToWalletEvents(wallet)`: cleanup, then subscribe to the
wallet's `standard:events` `change` event when the feature (with `on`)
exists. -/
def subscribeToWalletEvents (s : WidgetState) (wallet : Wallet) :
    WidgetState :=
  let s0 := cleanupWalletEvents s
  if wallet.features.standardEvents then
    { s0 with walletChangeSubscribed := true }
  else s0

/-! ## `connectToWallet`

The function is `async`; its only suspension point is
`await connectFeature.connect()`.  It is split at that point:
`connectStart` is the synchronous prefix (guard, `isConnecting = true`,
UI refresh, bridge publish, and the capability invocation itself), and
`connectFinish` is the continuation run when the awaited call settles,
taking the call's outcome as a parameter. -/

/-- Outcome of the synchronous prefix of `connectToWallet`. -/
inductive StartResult where
  | noOp
  | threwSync
  | invoked
  deriving DecidableEq, Repr

/-- Result of `await connectFeature.connect()`:
`Except.error ()` when the capability throws; `Except.ok accountsField`
where `accountsField` is the `connectResult?.accounts` value (`none` when
the field is nullish, so that `|| wallet.accounts` falls back). -/
abbrev ConnectOutcome := Except Unit (Option (List Account))

/-- `connectResult?.accounts || wallet.accounts`: JS `||` falls back only on
a nullish `accounts` field (an empty array is truthy and kept). -/
def effectiveAccounts (wallet : Wallet) : Option (List Account) →
    List Account
  | some accs => accs
  | none => wallet.accounts

/-- Synchronous prefix of `connectToWallet(wallet, persistSelection)` up to
(and including) starting `connectFeature.connect()`.  Returns `noOp` when
the `!wallet || isConnecting` guard fires (state untouched), `threwSync`
when `wallet.features['standard:connect']` is absent, so that reading
`.connect` throws and the `catch`/`finally` blocks run without any
capability invocation, and `invoked` when the capability call was started
and the function suspended. -/
def connectStart (s : WidgetState) (wallet : Option Wallet) :
    WidgetState × StartResult :=
  match wallet with
  | none => (s, StartResult.noOp)
  | some w =>
    if s.isConnecting then (s, StartResult.noOp)
    else
      let s1 := syncBridgeState { s with isConnecting := true }
      if w.features.standardConnect then
        ({ s1 with connectInvocations := s1.connectInvocations + 1 },
          StartResult.invoked)
      else
        let s2 := { s1 with errorLog := s1.errorLog + 1 }
        (syncBridgeState { s2 with isConnecting := false },
          StartResult.threwSync)

/-- Continuation of `connectToWallet` after `await connectFeature.connect()`
settles with `result`: the rest of the `try` block, the `catch` (which logs
with `console.error` and never rethrows), and the `finally` block. -/
def connectFinish (s : WidgetState) (w : Wallet) (persistSelection : Bool)
    (result : ConnectOutcome) : WidgetState :=
  let sTry :=
    match result with
    | Except.error _ => { s with errorLog := s.errorLog + 1 }
    | Except.ok accountsField =>
      match getPreferredAccount (effectiveAccounts w accountsField) with
      | none => { s with errorLog := s.errorLog + 1 }
      | some account =>
        let s1 := { s with selectedWallet := some w,
                           selectedAccount := some account }
        let s2 := if persistSelection then persistPreferredWallet s1 (some w)
                  else s1
        closeWalletPicker (subscribeToWalletEvents s2 w)
  syncBridgeState { sTry with isConnecting := false }

/-- The whole of `connectToWallet(wallet, persistSelection)` when the
awaited capability call settles with `result`. -/
def connectToWallet (s : WidgetState) (wallet : Option Wallet)
    (persistSelection : Bool) (result : ConnectOutcome) : WidgetState :=
  match connectStart s wallet, wallet with
  | (s1, StartResult.invoked), some w =>
    connectFinish s1 w persistSelection result
  | (s1, _), _ => s1

/-- `disconnectWallet()`.  `capabilityThrows` tells whether the wallet's
`standard:disconnect.disconnect()` call (made only when the feature with a
`disconnect` member exists) throws; the `catch` logs with `console.warn`
and the `finally` block always clears the selection. -/
def disconnectWallet (s : WidgetState) (capabilityThrows : Bool) :
    WidgetState :=
  match s.selectedWallet with
  | none => s
  | some w =>
    let s0 :=
      if w.features.standardDisconnect && capabilityThrows then
        { s with warnLog := s.warnLog + 1 }
      else s
    let s1 := persistPreferredWallet
      { (cleanupWalletEvents s0) with
        selectedWallet := none
        selectedAccount := none } none
    syncBridgeState (closeWalletPicker s1)

/-- The `change` handler installed by `subscribeToWalletEvents(wallet)`.
`accountsField` is the event's `accounts` payload (`none` when nullish, so
`?? wallet.accounts ?? []` falls back to the wallet's account list). -/
def handleChangeEvent (s : WidgetState) (wallet : Wallet)
    (accountsField : Option (List Account)) : WidgetState :=
  match s.selectedWallet with
  | none => s
  | some sel =>
    if getWalletIdentifier wallet = getWalletIdentifier sel then
      match getPreferredAccount (accountsField.getD wallet.accounts) with
      | some nextAccount =>
        syncBridgeState { s with selectedAccount := some nextAccount }
      | none =>
        syncBridgeState (persistPreferredWallet
          { s with
            selectedWallet := none
            selectedAccount := none } none)
    else s

/-- The registry `unregister` handler installed by
`mountWalletConnectButton` (the selection-state part; the trailing
`renderWalletList()`/`refreshButtonUi()` calls touch only the DOM). -/
def handleUnregister (le : String → String → Bool) (s : WidgetState)
    (registry : List Wallet) : WidgetState :=
  match s.selectedWallet with
  | none => s
  | some sel =>
    if (getConnectableWallets le registry).any
        (fun w => getWalletIdentifier w = getWalletIdentifier sel) then s
    else
      syncBridgeState (persistPreferredWallet
        { (cleanupWalletEvents s) with
          selectedWallet := none
          selectedAccount := none } none)

/-! ## Mount / unmount -/

/-- The subscription-attachment and DOM effects of a successful first
`mountWalletConnectButton(target)` call: render the widget markup, attach
the two registry handlers (`register`, `unregister`) and — via
`attachGlobalHandlers` — the document-level `click` and `keydown`
listeners.  (The trailing initial render, bridge publish and auto-reconnect
are the already-modelled `syncBridgeState` / `connectToWallet`.) -/
def mountAttach (s : WidgetState) : WidgetState :=
  { s with
    mounted := true
    domRendered := true
    registryRegisterHandlers := s.registryRegisterHandlers + 1
    registryUnregisterHandlers := s.registryUnregisterHandlers + 1
    docClickHandlers := s.docClickHandlers + 1
    docKeydownHandlers := s.docKeydownHandlers + 1 }

/-- The `unmount()` function of the handle returned by
`mountWalletConnectButton`: `cleanupWalletEvents()` and the reset of the
`mountedContainer` marker — nothing else. -/
def unmountHandle (s : WidgetState) : WidgetState :=
  { (cleanupWalletEvents s) with mounted := false }

/-- The spec's selection-state invariant: `account` is non-none only if
`wallet` is non-none. -/
def selectionInvariant (s : WidgetState) : Prop :=
  s.selectedAccount ≠ none → s.selectedWallet ≠ none

instance (s : WidgetState) : Decidable (selectionInvariant s) := by
  unfold selectionInvariant
  infer_instance

/-- A connect attempt whose awaited capability call settled with `result`
fails iff the capability threw or no usable account was found. -/
def connectAttemptFailed (w : Wallet) (result : ConnectOutcome) : Bool :=
  match result with
  | Except.error _ => true
  | Except.ok accountsField =>
    (getPreferredAccount (effectiveAccounts w accountsField)).isNone

/-! ## Concrete fixtures (used to instantiate the theorems) -/

/-- A feature set with `standard:connect`, `standard:disconnect`,
`standard:events` and `sui:signTransaction`. -/
def signFeatures : Features :=
  { standardConnect := true
    standardDisconnect := true
    standardEvents := true
    suiSignTransaction := true
    suiSignTransactionBlock := false
    suiSignAndExecuteTransaction := false
    suiSignAndExecuteTransactionBlock := false }

/-- A feature set with `standard:connect` and
`sui:signAndExecuteTransaction` only. -/
def execFeatures : Features :=
  { standardConnect := true
    standardDisconnect := false
    standardEvents := false
    suiSignTransaction := false
    suiSignTransactionBlock := false
    suiSignAndExecuteTransaction := true
    suiSignAndExecuteTransactionBlock := false }

/-- A feature set with `standard:connect` but no sign capability. -/
def noSignFeatures : Features :=
  { standardConnect := true
    standardDisconnect := false
    standardEvents := false
    suiSignTransaction := false
    suiSignTransactionBlock := false
    suiSignAndExecuteTransaction := false
    suiSignAndExecuteTransactionBlock := false }

/-- An account on `sui:mainnet`. -/
def mainnetAccount : Account :=
  { address := "0xabc123", chains := ["sui:mainnet"] }

/-- An account on `sui:testnet` only. -/
def testnetAccount : Account :=
  { address := "0xdef456", chains := ["sui:testnet"] }

/-- A connectable wallet that can sign (but not sign-and-execute). -/
def walletAlpha : Wallet :=
  { id := some "alpha", name := "Alpha", features := signFeatures,
    accounts := [mainnetAccount] }

/-- A connectable wallet that can only sign-and-execute. -/
def walletBeta : Wallet :=
  { id := some "beta", name := "Beta", features := execFeatures,
    accounts := [testnetAccount] }

/-- A wallet with `standard:connect` but no sign capability
(not connectable). -/
def walletGamma : Wallet :=
  { id := some "gamma", name := "Gamma", features := noSignFeatures,
    accounts := [] }

/-- The widget state right after module load: no selection, nothing
subscribed, nothing published. -/
def initialState : WidgetState :=
  { selectedWallet := none
    selectedAccount := none
    isConnecting := false
    preferredWallet := none
    pickerHidden := true
    walletChangeSubscribed := false
    registryRegisterHandlers := 0
    registryUnregisterHandlers := 0
    docClickHandlers := 0
    docKeydownHandlers := 0
    domRendered := false
    mounted := false
    bridgeLog := []
    connectInvocations := 0
    errorLog := 0
    warnLog := 0 }

/-- A state connected to `walletAlpha` with its preference persisted. -/
def connectedToAlpha : WidgetState :=
  { initialState with
    selectedWallet := some walletAlpha
    selectedAccount := some mainnetAccount
    preferredWallet := some "alpha"
    walletChangeSubscribed := true }

/-- A disconnected state still holding a persisted preference from an
earlier session. -/
def stalePreferenceState : WidgetState :=
  { initialState with preferredWallet := some "alpha" }

/-- A concrete total comparison on names, standing in for the abstract
`localeCompare(a, b) <= 0` relation when instantiating theorems. -/
def stringLe (a b : String) : Bool := decide (a ≤ b)

/-- A concrete registry snapshot: one sign wallet, one non-connectable
wallet, one sign-and-execute wallet, deliberately out of name order. -/
def sampleRegistry : List Wallet := [walletBeta, walletGamma, walletAlpha]

/-! ## Theorems -/

/-- `List.find?` returns the element at index `i` when it satisfies the
predicate and every earlier element fails it. -/
theorem find?_of_first_match {α : Type} (p : α → Bool) :
    ∀ (l : List α) (i : Nat) (a : α), l[i]? = some a → p a = true →
      (∀ j b, j < i → l[j]? = some b → p b = false) →
      l.find? p = some a := by
  intro l
  induction l with
  | nil => intro i a ha; simp at ha
  | cons x xs ih =>
    intro i a ha hpa hearlier
    cases i with
    | zero =>
      simp only [List.getElem?_cons_zero, Option.some.injEq] at ha
      subst ha
      exact List.find?_cons_of_pos _ hpa
    | succ n =>
      have hx : p x = false := hearlier 0 x (Nat.succ_pos n) (by simp)
      rw [List.find?_cons_of_neg _ (by simp [hx])]
      exact ih n a (by simpa using ha) hpa
        (fun j b hj hb =>
          hearlier (j + 1) b (Nat.succ_lt_succ hj) (by simpa using hb))

/-- C8: for every account list (as produced by a connect result or by a
wallet `change` event), `getPreferredAccount` chooses the first account
whose chain list includes `sui:mainnet`; if none matches it falls back to
the first account; on the empty list it chooses no account. -/
theorem preferred_account_selection (accounts : List Account) :
    (accounts = [] → getPreferredAccount accounts = none)
  ∧ (∀ (i : Nat) (a : Account), accounts[i]? = some a →
      hasMainnetChain a = true →
      (∀ (j : Nat) (b : Account), j < i → accounts[j]? = some b →
        hasMainnetChain b = false) →
      getPreferredAccount accounts = some a)
  ∧ ((∀ a ∈ accounts, hasMainnetChain a = false) →
      getPreferredAccount accounts = accounts.head?) := by
  refine ⟨?_, ?_, ?_⟩
  · rintro rfl; rfl
  · intro i a ha hpa hearlier
    unfold getPreferredAccount
    rw [find?_of_first_match hasMainnetChain accounts i a ha hpa hearlier]
  · intro hall
    unfold getPreferredAccount
    rw [List.find?_eq_none.mpr (fun x hx => by simp [hall x hx])]

/-- C8 witness: on a concrete two-account list whose second entry is the
only mainnet account, that entry is chosen. -/
theorem preferred_account_selection_witness :
    ([] = ([] : List Account) →
        getPreferredAccount [] = none)
  ∧ getPreferredAccount [testnetAccount, mainnetAccount]
      = some mainnetAccount := by
  constructor
  · exact (preferred_account_selection []).1
  · exact (preferred_account_selection [testnetAccount, mainnetAccount]).2.1
      1 mainnetAccount (by decide) (by decide)
      (by
        intro j b hj hb
        have hj0 : j = 0 := Nat.lt_one_iff.mp hj
        subst hj0
        simp only [List.getElem?_cons_zero, Option.some.injEq] at hb
        subst hb
        decide)

/-- C1: a signer produced by `getSigner` throws `Wallet not connected`
before performing any step when wallet or account is absent; otherwise the
sign-transaction path (sign, then execute on the client with effects and
object changes, waiting for local execution) is taken whenever one of the
two sign-transaction variants is present — regardless of the
sign-and-execute variants, so it has priority; otherwise the
sign-and-execute path (execute, then await the finalized transaction) is
taken when one of its two variants is present; otherwise an
unsupported-wallet error naming the wallet is thrown.  The closure never
rethrows anything else: `signerRun` is total. -/
theorem signer_policy (w : Wallet) (a : Account) (chain : String) :
    (∀ (wallet : Option Wallet) (account : Option Account),
        wallet = none ∨ account = none →
        signerRun wallet account chain
          = ([], some SignerError.walletNotConnected))
  ∧ (hasSignTransactionFeature w = true →
      signerRun (some w) (some a) chain
        = ([SignerStep.createClient, SignerStep.setSenderIfNotSet a.address,
            SignerStep.walletSignTransaction chain,
            SignerStep.clientExecuteTransactionBlock true true
              "WaitForLocalExecution"], none))
  ∧ (hasSignTransactionFeature w = false →
      hasSignAndExecuteFeature w = true →
      signerRun (some w) (some a) chain
        = ([SignerStep.createClient, SignerStep.setSenderIfNotSet a.address,
            SignerStep.walletSignAndExecuteTransaction chain,
            SignerStep.clientWaitForTransaction true true], none))
  ∧ (hasSignTransactionFeature w = false →
      hasSignAndExecuteFeature w = false →
      signerRun (some w) (some a) chain
        = ([SignerStep.createClient, SignerStep.setSenderIfNotSet a.address],
            some (SignerError.unsupportedWallet w.name))) := by
  refine ⟨?_, ?_, ?_, ?_⟩
  · rintro wallet account (rfl | rfl)
    · cases account <;> rfl
    · cases wallet <;> rfl
  · intro h1; simp [signerRun, h1]
  · intro h1 h2; simp [signerRun, h1, h2]
  · intro h1 h2; simp [signerRun, h1, h2]

/-- C1 witness: the sign-transaction wallet `walletAlpha` takes the
sign-then-execute path on a concrete invocation. -/
theorem signer_policy_witness :
    hasSignTransactionFeature walletAlpha = true
  ∧ signerRun (some walletAlpha) (some mainnetAccount) SUI_MAINNET_CHAIN
      = ([SignerStep.createClient,
          SignerStep.setSenderIfNotSet mainnetAccount.address,
          SignerStep.walletSignTransaction SUI_MAINNET_CHAIN,
          SignerStep.clientExecuteTransactionBlock true true
            "WaitForLocalExecution"], none) :=
  ⟨by decide,
    (signer_policy walletAlpha mainnetAccount SUI_MAINNET_CHAIN).2.1
      (by decide)⟩

/-- C3: for every registry snapshot, and every transitive, total name
comparison (the locale-aware comparison is one), `getConnectableWallets`
is a permutation of the sub-list of wallets passing `canConnect` (connect
capability plus at least one of the four sign variants), it is sorted
ascending by display name, and membership is exactly
`registered ∧ canConnect`. -/
theorem listConnectableWallets_filter_sorted (le : String → String → Bool)
    (registry : List Wallet)
    (htrans : ∀ a b c, le a b = true → le b c = true → le a c = true)
    (htotal : ∀ a b, (le a b || le b a) = true) :
    (getConnectableWallets le registry).Perm (registry.filter canConnect)
  ∧ (getConnectableWallets le registry).Pairwise
      (fun a b => le a.name b.name = true)
  ∧ (∀ w, w ∈ getConnectableWallets le registry ↔
      w ∈ registry ∧ canConnect w = true) := by
  refine ⟨List.mergeSort_perm _ _, ?_, ?_⟩
  · exact List.sorted_mergeSort
      (fun a b c => htrans a.name b.name c.name)
      (fun a b => htotal a.name b.name) _
  · intro w
    rw [getConnectableWallets, List.mem_mergeSort, List.mem_filter]

/-- C3 witness: the theorem instantiated with the concrete dictionary
comparison and the concrete three-wallet registry. -/
theorem listConnectableWallets_filter_sorted_witness :
    (getConnectableWallets stringLe sampleRegistry).Perm
        (sampleRegistry.filter canConnect)
  ∧ (getConnectableWallets stringLe sampleRegistry).Pairwise
      (fun a b => stringLe a.name b.name = true)
  ∧ (∀ w, w ∈ getConnectableWallets stringLe sampleRegistry ↔
      w ∈ sampleRegistry ∧ canConnect w = true) :=
  listConnectableWallets_filter_sorted stringLe sampleRegistry
    (fun a b c h1 h2 => by
      simp only [stringLe, decide_eq_true_eq] at *
      exact le_trans h1 h2)
    (fun a b => by
      simp only [stringLe, Bool.or_eq_true, decide_eq_true_eq]
      exact le_total a b)

/-- C2: a connect request issued while `isConnecting` is set is a no-op —
the state record (hence the wallet/account selection, the bridge log and
the invocation count) is returned untouched.  In the back-to-back
scenario, the first call flips the flag and invokes the capability, so the
second call is dropped and exactly one capability invocation happens
across the two calls. -/
theorem connect_reentrancy_noop (s : WidgetState) (w1 : Wallet)
    (wallet2 : Option Wallet)
    (h0 : s.isConnecting = false)
    (hc : w1.features.standardConnect = true) :
    (∀ (u : WidgetState) (wo : Option Wallet), u.isConnecting = true →
        connectStart u wo = (u, StartResult.noOp))
  ∧ (connectStart s (some w1)).2 = StartResult.invoked
  ∧ (connectStart s (some w1)).1.isConnecting = true
  ∧ connectStart (connectStart s (some w1)).1 wallet2
      = ((connectStart s (some w1)).1, StartResult.noOp)
  ∧ (connectStart (connectStart s (some w1)).1 wallet2).1.connectInvocations
      = s.connectInvocations + 1 := by
  have key : ∀ (u : WidgetState) (wo : Option Wallet), u.isConnecting = true →
      connectStart u wo = (u, StartResult.noOp) := by
    intro u wo hu
    cases wo with
    | none => rfl
    | some w => simp [connectStart, hu]
  have h1 : (connectStart s (some w1)).1.isConnecting = true := by
    simp [connectStart, h0, hc, syncBridgeState]
  refine ⟨key, ?_, h1, key _ wallet2 h1, ?_⟩
  · simp [connectStart, h0, hc]
  · rw [key _ wallet2 h1]
    simp [connectStart, h0, hc, syncBridgeState]

/-- C2 witness: starting disconnected, two back-to-back connect calls on
concrete wallets leave the second a no-op with a single invocation. -/
theorem connect_reentrancy_noop_witness :
    connectStart (connectStart initialState (some walletAlpha)).1
        (some walletBeta)
      = ((connectStart initialState (some walletAlpha)).1, StartResult.noOp)
  ∧ (connectStart (connectStart initialState (some walletAlpha)).1
        (some walletBeta)).1.connectInvocations = 1 := by
  have h := connect_reentrancy_noop initialState walletAlpha
    (some walletBeta) rfl rfl
  exact ⟨h.2.2.2.1, h.2.2.2.2.trans rfl⟩

/-- C5: every bridge publish appends exactly `bridgeView s`, the image of
the selection state at call time: wallet and account both present publishes
`connected` with the disconnect function and the signer built from that
very pair; otherwise wallet, account and both functions are published as
`none`/null and the status is `connecting` exactly when a connect attempt
is in flight, `disconnected` otherwise. -/
theorem bridge_publish_reflects_state (s : WidgetState) :
    ((syncBridgeState s).bridgeLog = s.bridgeLog ++ [bridgeView s])
  ∧ (∀ w a, s.selectedWallet = some w → s.selectedAccount = some a →
      bridgeView s
        = { wallet := some w, account := some a,
            status := BridgeStatus.connected, disconnectAvailable := true,
            signer := some (w, a) })
  ∧ (s.selectedWallet = none ∨ s.selectedAccount = none →
      (bridgeView s).wallet = none
      ∧ (bridgeView s).account = none
      ∧ (bridgeView s).disconnectAvailable = false
      ∧ (bridgeView s).signer = none
      ∧ ((bridgeView s).status = BridgeStatus.connecting
          ↔ s.isConnecting = true)
      ∧ ((bridgeView s).status = BridgeStatus.disconnected
          ↔ s.isConnecting = false)) := by
  refine ⟨rfl, ?_, ?_⟩
  · intro w a hw ha
    simp [bridgeView, hw, ha]
  · intro h
    have hview : bridgeView s
        = { wallet := none, account := none,
            status := if s.isConnecting then BridgeStatus.connecting
                      else BridgeStatus.disconnected,
            disconnectAvailable := false, signer := none } := by
      unfold bridgeView
      rcases h with hw | ha
      · rw [hw]
      · rw [ha]
        cases s.selectedWallet <;> rfl
    rw [hview]
    cases hC : s.isConnecting <;> simp

/-- C5 witness: the connected branch at the concrete connected state, and
the disconnected branch at the initial state. -/
theorem bridge_publish_reflects_state_witness :
    bridgeView connectedToAlpha
      = { wallet := some walletAlpha, account := some mainnetAccount,
          status := BridgeStatus.connected, disconnectAvailable := true,
          signer := some (walletAlpha, mainnetAccount) }
  ∧ (bridgeView initialState).status = BridgeStatus.disconnected := by
  constructor
  · exact (bridge_publish_reflects_state connectedToAlpha).2.1
      walletAlpha mainnetAccount rfl rfl
  · exact ((bridge_publish_reflects_state initialState).2.2
      (Or.inl rfl)).2.2.2.2.2.mpr rfl

/-- C6: a connect attempt that fails — the capability throws, or no usable
account comes back — logs the error (`console.error` count goes up by one)
and, starting from the `Disconnected` state, ends with the connecting flag
cleared and wallet and account `none`.  The attempt is modelled as the
total function `connectToWallet`, so no failure ever surfaces as a thrown
value to the caller. -/
theorem connect_failure_resolves_disconnected (s : WidgetState) (w : Wallet)
    (persistSelection : Bool) (result : ConnectOutcome)
    (hconn : s.isConnecting = false)
    (hw : s.selectedWallet = none) (ha : s.selectedAccount = none)
    (hfail : connectAttemptFailed w result = true) :
    (connectToWallet s (some w) persistSelection result).isConnecting = false
  ∧ (connectToWallet s (some w) persistSelection result).selectedWallet
      = none
  ∧ (connectToWallet s (some w) persistSelection result).selectedAccount
      = none
  ∧ (connectToWallet s (some w) persistSelection result).errorLog
      = s.errorLog + 1 := by
  by_cases hF : w.features.standardConnect = true
  · cases result with
    | error e =>
      simp [connectToWallet, connectStart, connectFinish, syncBridgeState,
        hconn, hF, hw, ha]
    | ok accountsField =>
      have hnone : getPreferredAccount (effectiveAccounts w accountsField)
          = none := by
        simpa [connectAttemptFailed, Option.isNone_iff_eq_none] using hfail
      simp [connectToWallet, connectStart, connectFinish, syncBridgeState,
        hconn, hF, hw, ha, hnone]
  · simp [connectToWallet, connectStart, syncBridgeState, hconn, hF,
      hw, ha]

/-- C6 witness: a throwing capability on a concrete disconnected state is
logged and resolved to a disconnected state. -/
theorem connect_failure_resolves_disconnected_witness :
    initialState.isConnecting = false
  ∧ (connectToWallet initialState (some walletAlpha) true
      (Except.error ())).isConnecting = false
  ∧ (connectToWallet initialState (some walletAlpha) true
      (Except.error ())).selectedWallet = none
  ∧ (connectToWallet initialState (some walletAlpha) true
      (Except.error ())).errorLog = 1 := by
  have h := connect_failure_resolves_disconnected initialState walletAlpha
    true (Except.error ()) rfl rfl rfl rfl
  exact ⟨rfl, h.1, h.2.1, h.2.2.2.trans rfl⟩

/-- C10: a failed connect attempt (capability throws, or no usable account)
leaves the previously selected wallet, the selected account and the
persisted preference exactly as they were before the attempt — in
particular a widget connected to one wallet stays connected to it after a
failed attempt to connect to another. -/
theorem failed_connect_preserves_selection (s : WidgetState)
    (wallet : Option Wallet) (persistSelection : Bool)
    (result : ConnectOutcome)
    (hfail : ∀ w, wallet = some w → connectAttemptFailed w result = true) :
    (connectToWallet s wallet persistSelection result).selectedWallet
      = s.selectedWallet
  ∧ (connectToWallet s wallet persistSelection result).selectedAccount
      = s.selectedAccount
  ∧ (connectToWallet s wallet persistSelection result).preferredWallet
      = s.preferredWallet := by
  cases wallet with
  | none => exact ⟨rfl, rfl, rfl⟩
  | some w =>
    have hf := hfail w rfl
    by_cases hC : s.isConnecting = true
    · simp [connectToWallet, connectStart, hC]
    · by_cases hF : w.features.standardConnect = true
      · cases result with
        | error e =>
          simp [connectToWallet, connectStart, connectFinish,
            syncBridgeState, hC, hF]
        | ok accountsField =>
          have hnone : getPreferredAccount (effectiveAccounts w accountsField)
              = none := by
            simpa [connectAttemptFailed, Option.isNone_iff_eq_none] using hf
          simp [connectToWallet, connectStart, connectFinish,
            syncBridgeState, hC, hF, hnone]
      · simp [connectToWallet, connectStart, syncBridgeState, hC, hF]

/-- C10 witness: connected to `walletAlpha`, a failed attempt to connect
to `walletBeta` leaves wallet, account and preference untouched. -/
theorem failed_connect_preserves_selection_witness :
    (connectToWallet connectedToAlpha (some walletBeta) true
        (Except.error ())).selectedWallet = some walletAlpha
  ∧ (connectToWallet connectedToAlpha (some walletBeta) true
        (Except.error ())).selectedAccount = some mainnetAccount
  ∧ (connectToWallet connectedToAlpha (some walletBeta) true
        (Except.error ())).preferredWallet = some "alpha" := by
  have h := failed_connect_preserves_selection connectedToAlpha
    (some walletBeta) true (Except.error ())
    (fun w hw => by cases hw; rfl)
  exact ⟨h.1.trans rfl, h.2.1.trans rfl, h.2.2.trans rfl⟩

/-- The invariant only looks at the two selection fields. -/
theorem selectionInvariant_of_eq {s t : WidgetState}
    (hw : t.selectedWallet = s.selectedWallet)
    (ha : t.selectedAccount = s.selectedAccount)
    (h : selectionInvariant s) : selectionInvariant t := by
  unfold selectionInvariant at *
  rw [hw, ha]; exact h

/-- Any state with a selected wallet satisfies the invariant. -/
theorem selectionInvariant_of_some {t : WidgetState} {w : Wallet}
    (hw : t.selectedWallet = some w) : selectionInvariant t := by
  unfold selectionInvariant
  rw [hw]; simp

/-- Any state with no selected account satisfies the invariant. -/
theorem selectionInvariant_of_none {t : WidgetState}
    (ha : t.selectedAccount = none) : selectionInvariant t := by
  unfold selectionInvariant
  rw [ha]; simp

/-- C4: the invariant “`account` is non-none only if `wallet` is non-none”
is preserved by every operation that mutates the selection state: a whole
connect attempt (success or failure), explicit disconnect, a wallet
`change` event, and a registry `unregister` event. -/
theorem selection_invariant_preserved (le : String → String → Bool)
    (s : WidgetState) (wallet : Option Wallet) (persistSelection : Bool)
    (result : ConnectOutcome) (w : Wallet)
    (accountsField : Option (List Account)) (registry : List Wallet)
    (capabilityThrows : Bool)
    (hinv : selectionInvariant s) :
    selectionInvariant (connectToWallet s wallet persistSelection result)
  ∧ selectionInvariant (disconnectWallet s capabilityThrows)
  ∧ selectionInvariant (handleChangeEvent s w accountsField)
  ∧ selectionInvariant (handleUnregister le s registry) := by
  refine ⟨?_, ?_, ?_, ?_⟩
  · cases wallet with
    | none => exact hinv
    | some w1 =>
      by_cases hC : s.isConnecting = true
      · simpa [connectToWallet, connectStart, hC] using hinv
      · by_cases hF : w1.features.standardConnect = true
        · cases result with
          | error e =>
            refine selectionInvariant_of_eq ?_ ?_ hinv <;>
              simp [connectToWallet, connectStart, connectFinish,
                syncBridgeState, hC, hF]
          | ok accountsField2 =>
            cases hacc : getPreferredAccount
                (effectiveAccounts w1 accountsField2) with
            | none =>
              refine selectionInvariant_of_eq ?_ ?_ hinv <;>
                simp [connectToWallet, connectStart, connectFinish,
                  syncBridgeState, hC, hF, hacc]
            | some a =>
              refine selectionInvariant_of_some (w := w1) ?_
              cases persistSelection <;>
                simp [connectToWallet, connectStart, connectFinish,
                  syncBridgeState, subscribeToWalletEvents,
                  cleanupWalletEvents, closeWalletPicker,
                  persistPreferredWallet, hC, hF, hacc] <;>
                split <;> rfl
        · refine selectionInvariant_of_eq ?_ ?_ hinv <;>
            simp [connectToWallet, connectStart, syncBridgeState, hC, hF]
  · cases hsel : s.selectedWallet with
    | none => simpa [disconnectWallet, hsel] using hinv
    | some w2 =>
      apply selectionInvariant_of_none
      simp [disconnectWallet, hsel, syncBridgeState, closeWalletPicker,
        persistPreferredWallet, cleanupWalletEvents]
  · cases hsel : s.selectedWallet with
    | none => simpa [handleChangeEvent, hsel] using hinv
    | some sel =>
      by_cases hid : getWalletIdentifier w = getWalletIdentifier sel
      · cases hacc : getPreferredAccount
            (accountsField.getD w.accounts) with
        | none =>
          apply selectionInvariant_of_none
          simp [handleChangeEvent, hsel, hid, hacc, syncBridgeState,
            persistPreferredWallet]
        | some next =>
          refine selectionInvariant_of_some (w := sel) ?_
          simp [handleChangeEvent, hsel, hid, hacc, syncBridgeState]
      · simpa [handleChangeEvent, hsel, hid] using hinv
  · cases hsel : s.selectedWallet with
    | none => simpa [handleUnregister, hsel] using hinv
    | some sel =>
      by_cases hmem : (getConnectableWallets le registry).any
          (fun w2 => getWalletIdentifier w2 = getWalletIdentifier sel) = true
      · simpa [handleUnregister, hsel, hmem] using hinv
      · apply selectionInvariant_of_none
        simp [handleUnregister, hsel, hmem, syncBridgeState,
          persistPreferredWallet, cleanupWalletEvents]

/-- C4 witness: the four operations applied at the concrete connected
state all keep the invariant. -/
theorem selection_invariant_preserved_witness :
    selectionInvariant connectedToAlpha
  ∧ (selectionInvariant
        (connectToWallet connectedToAlpha (some walletBeta) true
          (Except.ok (some [testnetAccount])))
    ∧ selectionInvariant (disconnectWallet connectedToAlpha false)
    ∧ selectionInvariant
        (handleChangeEvent connectedToAlpha walletAlpha (some []))
    ∧ selectionInvariant
        (handleUnregister stringLe connectedToAlpha sampleRegistry)) :=
  ⟨by decide,
    selection_invariant_preserved stringLe connectedToAlpha
      (some walletBeta) true (Except.ok (some [testnetAccount]))
      walletAlpha (some []) sampleRegistry false (by decide)⟩

/-- C7 counterexample: a user-initiated connect attempt that throws does
NOT clear the persisted preferred-wallet record — the `catch`/`finally`
cleanup of `connectToWallet` never touches it, contradicting “cleared on
connect failure cleanup”. -/
theorem preferred_wallet_failure_counterexample :
    ¬ ((connectToWallet stalePreferenceState (some walletAlpha) true
        (Except.error ())).preferredWallet = none) := by
  decide

/-- C7 (amended): the persisted preferred-wallet record is cleared on
explicit disconnect (whenever a wallet is selected); connect failure
cleanup leaves it untouched; a successful connect sets it to the connected
wallet's identifier when `persistSelection` is true and leaves it
untouched when `persistSelection` is false. -/
theorem preferred_wallet_lifecycle (s : WidgetState) (w : Wallet)
    (result : ConnectOutcome) (capabilityThrows : Bool)
    (accountsField : Option (List Account)) (a : Account) :
    (s.selectedWallet ≠ none →
      (disconnectWallet s capabilityThrows).preferredWallet = none)
  ∧ (connectAttemptFailed w result = true →
      ∀ persistSelection,
        (connectFinish s w persistSelection result).preferredWallet
          = s.preferredWallet)
  ∧ (result = Except.ok accountsField →
      getPreferredAccount (effectiveAccounts w accountsField) = some a →
      (connectFinish s w true result).preferredWallet
        = some (getWalletIdentifier w))
  ∧ (result = Except.ok accountsField →
      getPreferredAccount (effectiveAccounts w accountsField) = some a →
      (connectFinish s w false result).preferredWallet
        = s.preferredWallet) := by
  refine ⟨?_, ?_, ?_, ?_⟩
  · intro hsel
    cases hw : s.selectedWallet with
    | none => exact absurd hw hsel
    | some w2 =>
      simp [disconnectWallet, hw, syncBridgeState, closeWalletPicker,
        persistPreferredWallet, cleanupWalletEvents]
  · intro hfail persistSelection
    cases result with
    | error e => simp [connectFinish, syncBridgeState]
    | ok accountsField2 =>
      have hnone : getPreferredAccount (effectiveAccounts w accountsField2)
          = none := by
        simpa [connectAttemptFailed, Option.isNone_iff_eq_none] using hfail
      simp [connectFinish, syncBridgeState, hnone]
  · rintro rfl hacc
    simp [connectFinish, syncBridgeState, hacc, subscribeToWalletEvents,
      cleanupWalletEvents, closeWalletPicker, persistPreferredWallet]
    split <;> rfl
  · rintro rfl hacc
    simp [connectFinish, syncBridgeState, hacc, subscribeToWalletEvents,
      cleanupWalletEvents, closeWalletPicker]
    split <;> rfl

/-- C7 witness: explicit disconnect clears the concrete preference, a
successful persisted connect stores the new identifier, and a failed
connect leaves the old preference in place. -/
theorem preferred_wallet_lifecycle_witness :
    (disconnectWallet connectedToAlpha false).preferredWallet = none
  ∧ (connectFinish connectedToAlpha walletBeta true
      (Except.ok (some [testnetAccount]))).preferredWallet = some "beta"
  ∧ (connectFinish connectedToAlpha walletAlpha true
      (Except.error ())).preferredWallet = some "alpha" := by
  have h := preferred_wallet_lifecycle connectedToAlpha walletBeta
    (Except.ok (some [testnetAccount])) false (some [testnetAccount])
    testnetAccount
  have h2 := preferred_wallet_lifecycle connectedToAlpha walletAlpha
    (Except.error ()) false (some []) testnetAccount
  refine ⟨h.1 (by decide), ?_, ?_⟩
  · exact (h.2.2.1 rfl (by decide)).trans (by decide)
  · exact (h2.2.1 rfl true).trans rfl

/-- C9 counterexample: after mounting on a fresh state and calling the
returned `unmount()`, the registry `register`/`unregister` handlers and
the document-level `click`/`keydown` handlers are all still attached,
refuting that `unmount()` detaches all internal event subscriptions. -/
theorem unmount_detach_all_counterexample :
    ¬ ((unmountHandle (mountAttach initialState)).registryRegisterHandlers
          = 0
      ∧ (unmountHandle
          (mountAttach initialState)).registryUnregisterHandlers = 0
      ∧ (unmountHandle (mountAttach initialState)).docClickHandlers = 0
      ∧ (unmountHandle (mountAttach initialState)).docKeydownHandlers
          = 0) := by
  decide

/-- C9 (amended): the handle's `unmount()` detaches the per-wallet change
subscription and clears the mounted-container marker, but the registry
`register`/`unregister` handlers and the document-level `click`/`keydown`
handlers stay attached, and the rendered DOM is not removed. -/
theorem unmount_effects (s : WidgetState) :
    (unmountHandle (mountAttach s)).walletChangeSubscribed = false
  ∧ (unmountHandle (mountAttach s)).mounted = false
  ∧ (unmountHandle (mountAttach s)).registryRegisterHandlers
      = s.registryRegisterHandlers + 1
  ∧ (unmountHandle (mountAttach s)).registryUnregisterHandlers
      = s.registryUnregisterHandlers + 1
  ∧ (unmountHandle (mountAttach s)).docClickHandlers
      = s.docClickHandlers + 1
  ∧ (unmountHandle (mountAttach s)).docKeydownHandlers
      = s.docKeydownHandlers + 1
  ∧ (unmountHandle (mountAttach s)).domRendered = true :=
  ⟨rfl, rfl, rfl, rfl, rfl, rfl, rfl⟩

end ConnectButton
